import Mathlib

/-!
Verification of the image-compression demo app.

The application is a single-page UI whose state consists of a status enum,
the selected file, two object URLs, a stats record of plain numbers, and an
error string.  The handlers `handleImageSelect`, `handleCompress`,
`handleDownload` and `handleClear`, and the helper `formatBytes`, are embedded
below as pure functions.  Browser effects (the 1.5 s timer, canvas creation,
drawing, JPEG re-encoding) are recorded as an explicit event trace, and the
nondeterministic inputs (image decode success, canvas-context availability,
image dimensions, the produced data URL, the two Math.random draws) are
packaged in a `CompressEnv` environment.  JavaScript numbers are modelled as
exact rationals.
-/

/-- Embeds the JavaScript call `s.startsWith(p)`: `p` is a prefix of `s`. -/
def jsStartsWith (s p : String) : Bool :=
  p.toList.isPrefixOf s.toList

/-- Embeds JavaScript `Math.round`: round half toward positive infinity. -/
def jsRound (x : ℚ) : ℤ :=
  ⌊x + 1 / 2⌋

/-- Embeds `name.split(.)[0]` from JavaScript: the longest prefix of the
string that contains no dot (the whole string when it has no dot). -/
def splitDotHead (name : String) : String :=
  String.mk (name.toList.takeWhile (fun c => c != '.'))

/-- Mirror of the `File` values the handlers inspect: name, MIME type,
byte size. -/
structure AppFile where
  name : String
  type : String
  size : ℕ
deriving DecidableEq

/-- Mirror of `AppStatus` from types.ts:
`idle | image-loaded | compressing | done`. -/
inductive AppStatus
  | idle
  | imageLoaded
  | compressing
  | done
deriving DecidableEq

/-- Mirror of `CompressionStats` from types.ts. -/
structure CompressionStats where
  originalSize : ℚ
  compressedSize : ℚ
  reductionPercentage : ℚ
  psnr : ℚ
  mse : ℚ
deriving DecidableEq

/-- The six `useState` cells of the `App` component. -/
structure AppState where
  status : AppStatus
  originalFile : Option AppFile
  originalImageUrl : Option String
  compressedImageUrl : Option String
  stats : Option CompressionStats
  error : Option String
deriving DecidableEq

/-- The initial values of the six `useState` cells. -/
def initialState : AppState :=
  { status := AppStatus.idle
    originalFile := none
    originalImageUrl := none
    compressedImageUrl := none
    stats := none
    error := none }

/-- The `accept` attribute of the file input inside `ImageUploader`. -/
def imageUploaderAccept : String := "image/jpeg, image/png"

/-- Embedding of `handleImageSelect`.  `objectUrl` stands for the result of
`URL.createObjectURL(file)`. -/
def handleImageSelect (objectUrl : String) (file : AppFile) (s : AppState) : AppState :=
  if jsStartsWith file.type "image/" = false then
    { s with error := some "Please select a valid image file (JPEG or PNG)." }
  else
    { s with
        error := none
        originalFile := some file
        originalImageUrl := some objectUrl
        status := AppStatus.imageLoaded
        compressedImageUrl := none
        stats := none }

/-- The browser effects `handleCompress` performs, in order. -/
inductive CompressEvent
  | wait (ms : ℕ)
  | createCanvas (width height : ℕ)
  | drawImage (dx dy : ℕ)
  | toDataURL (mime : String) (quality : ℚ)
deriving DecidableEq

/-- The nondeterministic inputs of one `handleCompress` run: whether the
image decodes (`onload` versus `onerror`), whether `getContext` returns a
context, the decoded image dimensions, the data URL the canvas produces, and
the two `Math.random()` draws. -/
structure CompressEnv where
  decodeOk : Bool
  ctxOk : Bool
  imageWidth : ℕ
  imageHeight : ℕ
  dataUrl : String
  rand1 : ℚ
  rand2 : ℚ
deriving DecidableEq

/-- The data-URL header stripped before the base64 size estimate. -/
def base64Head : String := "data:image/jpeg;base64,"

/-- Embeds `Math.round((compressedDataUrl.length - head.length) * 3 / 4)`. -/
def compressedSizeOf (dataUrl : String) : ℚ :=
  (jsRound (((dataUrl.length : ℚ) - (base64Head.length : ℚ)) * 3 / 4) : ℚ)

/-- Embedding of `handleCompress`.  The guard mirrors the early return when
no image is loaded; the success branch mirrors the `onload` callback with a
usable 2d context, the middle branch the null-context bailout, the last
branch the `onerror` callback.  The second component records the browser
effects in order. -/
def handleCompress (env : CompressEnv) (s : AppState) : AppState × List CompressEvent :=
  match s.originalImageUrl, s.originalFile with
  | some _, some originalFile =>
    let s1 := { s with status := AppStatus.compressing }
    if env.decodeOk then
      if env.ctxOk then
        let compressedSize := compressedSizeOf env.dataUrl
        ({ s1 with
            compressedImageUrl := some env.dataUrl
            stats := some
              { originalSize := (originalFile.size : ℚ)
                compressedSize := compressedSize
                reductionPercentage := (1 - compressedSize / (originalFile.size : ℚ)) * 100
                psnr := 35 + env.rand1 * 5
                mse := 5 + env.rand2 * 5 }
            status := AppStatus.done },
          [CompressEvent.wait 1500,
           CompressEvent.createCanvas env.imageWidth env.imageHeight,
           CompressEvent.drawImage 0 0,
           CompressEvent.toDataURL "image/jpeg" (7 / 10)])
      else
        ({ s1 with
            error := some "Could not process image."
            status := AppStatus.imageLoaded },
          [CompressEvent.wait 1500,
           CompressEvent.createCanvas env.imageWidth env.imageHeight])
    else
      ({ s1 with
          error := some "Could not load image for processing."
          status := AppStatus.imageLoaded },
        [CompressEvent.wait 1500])
  | _, _ => (s, [])

/-- Embedding of `handleDownload`: returns the download file name, or `none`
when no compressed image exists (the early return). -/
def handleDownload (s : AppState) : Option String :=
  match s.compressedImageUrl with
  | none => none
  | some _ =>
    let base :=
      match s.originalFile with
      | some f => splitDotHead f.name
      | none => ""
    some ("compressed_" ++ (if base = "" then "image" else base) ++ ".jpg")

/-- Embedding of `handleClear`: the new state and the list of object URLs
passed to `URL.revokeObjectURL`. -/
def handleClear (s : AppState) : AppState × List String :=
  let revoked :=
    (match s.originalImageUrl with | some u => [u] | none => []) ++
    (match s.compressedImageUrl with | some u => [u] | none => [])
  ({ status := AppStatus.idle
     originalFile := none
     originalImageUrl := none
     compressedImageUrl := none
     stats := none
     error := none },
   revoked)

/-- Embeds `parseFloat(x.toFixed(dm))`: round to `dm` decimal digits, ties
toward positive infinity. -/
def jsToFixed (x : ℚ) (dm : ℕ) : ℚ :=
  (jsRound (x * 10 ^ dm) : ℚ) / 10 ^ dm

/-- The `sizes` array of `formatBytes`. -/
def formatBytesSizes : List String := ["Bytes", "KB", "MB", "GB"]

/-- Result of `formatBytes`: either the literal early-return string, or a
rounded numeric value paired with the unit looked up in `formatBytesSizes`
(`none` models the JavaScript `undefined` of an out-of-range index). -/
inductive FormatBytesResult
  | str (s : String)
  | formatted (value : ℚ) (unit : Option String)
deriving DecidableEq

/-- Embedding of `formatBytes`.  For positive integer input,
`Nat.log 1024 bytes` equals `Math.floor(Math.log(bytes) / Math.log(1024))`
computed with the exact real logarithm; this identity is part of
`formatBytes_unit_selection` below. -/
def formatBytes (bytes : ℕ) (decimals : ℤ) : FormatBytesResult :=
  if bytes = 0 then FormatBytesResult.str "0 Bytes"
  else
    let k : ℕ := 1024
    let dm : ℕ := if decimals < 0 then 0 else decimals.toNat
    let i : ℕ := Nat.log k bytes
    FormatBytesResult.formatted (jsToFixed ((bytes : ℚ) / (k : ℚ) ^ i) dm) formatBytesSizes[i]?

/-- Sample inputs used by the witness theorems. -/
def sampleFile : AppFile := { name := "photo.png", type := "image/png", size := 1000 }

/-- Sample loaded state used by the witness theorems. -/
def sampleState : AppState :=
  { status := AppStatus.imageLoaded
    originalFile := some sampleFile
    originalImageUrl := some "blob:orig"
    compressedImageUrl := none
    stats := none
    error := none }

/-- Sample successful environment used by the witness theorems. -/
def sampleEnv : CompressEnv :=
  { decodeOk := true
    ctxOk := true
    imageWidth := 100
    imageHeight := 80
    dataUrl := "data:image/jpeg;base64,AAAABBBB"
    rand1 := 1 / 2
    rand2 := 1 / 3 }

/-- Sample non-image file used by the witness theorems. -/
def txtFile : AppFile := { name := "notes.txt", type := "text/plain", size := 3 }

/-- Sample GIF file used by the witness theorems. -/
def gifFile : AppFile := { name := "anim.gif", type := "image/gif", size := 10 }

/-- Claim C3: selecting a file whose MIME type does not start with image/
sets the user-facing error string and leaves status, originalFile,
originalImageUrl, compressedImageUrl and stats at their previous values. -/
theorem handleImageSelect_nonImage_noStateChange (url : String) (file : AppFile)
    (s : AppState) (h : jsStartsWith file.type "image/" = false) :
    (handleImageSelect url file s).error =
        some "Please select a valid image file (JPEG or PNG)."
    ∧ (handleImageSelect url file s).status = s.status
    ∧ (handleImageSelect url file s).originalFile = s.originalFile
    ∧ (handleImageSelect url file s).originalImageUrl = s.originalImageUrl
    ∧ (handleImageSelect url file s).compressedImageUrl = s.compressedImageUrl
    ∧ (handleImageSelect url file s).stats = s.stats := by
  simp [handleImageSelect, h]

theorem handleImageSelect_nonImage_noStateChange_witness :
    (handleImageSelect "blob:u" txtFile sampleState).error =
        some "Please select a valid image file (JPEG or PNG)."
    ∧ (handleImageSelect "blob:u" txtFile sampleState).status = sampleState.status
    ∧ (handleImageSelect "blob:u" txtFile sampleState).originalFile = sampleState.originalFile
    ∧ (handleImageSelect "blob:u" txtFile sampleState).originalImageUrl =
        sampleState.originalImageUrl
    ∧ (handleImageSelect "blob:u" txtFile sampleState).compressedImageUrl =
        sampleState.compressedImageUrl
    ∧ (handleImageSelect "blob:u" txtFile sampleState).stats = sampleState.stats :=
  handleImageSelect_nonImage_noStateChange "blob:u" txtFile sampleState (by decide)

/-- Claim C6: selecting a file whose MIME type starts with image/ moves the
status to image-loaded, records the file and its object URL, clears the
error, and resets compressedImageUrl and stats to null. -/
theorem handleImageSelect_image_loads (url : String) (file : AppFile) (s : AppState)
    (h : jsStartsWith file.type "image/" = true) :
    (handleImageSelect url file s).status = AppStatus.imageLoaded
    ∧ (handleImageSelect url file s).originalFile = some file
    ∧ (handleImageSelect url file s).originalImageUrl = some url
    ∧ (handleImageSelect url file s).error = none
    ∧ (handleImageSelect url file s).compressedImageUrl = none
    ∧ (handleImageSelect url file s).stats = none := by
  simp [handleImageSelect, h]

theorem handleImageSelect_image_loads_witness :
    (handleImageSelect "blob:u" sampleFile initialState).status = AppStatus.imageLoaded
    ∧ (handleImageSelect "blob:u" sampleFile initialState).originalFile = some sampleFile
    ∧ (handleImageSelect "blob:u" sampleFile initialState).originalImageUrl = some "blob:u"
    ∧ (handleImageSelect "blob:u" sampleFile initialState).error = none
    ∧ (handleImageSelect "blob:u" sampleFile initialState).compressedImageUrl = none
    ∧ (handleImageSelect "blob:u" sampleFile initialState).stats = none :=
  handleImageSelect_image_loads "blob:u" sampleFile initialState (by decide)

/-- Claim C5: clearing resets every state cell to its initial value, from
any state: status idle and all five other cells null. -/
theorem handleClear_resets_state (s : AppState) :
    (handleClear s).1.status = AppStatus.idle
    ∧ (handleClear s).1.originalFile = none
    ∧ (handleClear s).1.originalImageUrl = none
    ∧ (handleClear s).1.compressedImageUrl = none
    ∧ (handleClear s).1.stats = none
    ∧ (handleClear s).1.error = none
    ∧ (handleClear s).1 = initialState :=
  ⟨rfl, rfl, rfl, rfl, rfl, rfl, rfl⟩

/-- Claim C1: a completed compression run ends with status done, stores the
produced data URL, and its stats satisfy
reductionPercentage = (1 - compressedSize / originalSize) * 100 with
originalSize the selected file byte size and compressedSize computed from
the produced JPEG data URL. -/
theorem handleCompress_done_stats (env : CompressEnv) (s : AppState) (u : String)
    (f : AppFile) (hu : s.originalImageUrl = some u) (hf : s.originalFile = some f)
    (hd : env.decodeOk = true) (hc : env.ctxOk = true) :
    (handleCompress env s).1.status = AppStatus.done
    ∧ (handleCompress env s).1.compressedImageUrl = some env.dataUrl
    ∧ ∃ st, (handleCompress env s).1.stats = some st
        ∧ st.originalSize = (f.size : ℚ)
        ∧ st.compressedSize = compressedSizeOf env.dataUrl
        ∧ st.reductionPercentage = (1 - st.compressedSize / st.originalSize) * 100 := by
  simp [handleCompress, hu, hf, hd, hc]

theorem handleCompress_done_stats_witness :
    (handleCompress sampleEnv sampleState).1.status = AppStatus.done
    ∧ (handleCompress sampleEnv sampleState).1.compressedImageUrl = some sampleEnv.dataUrl
    ∧ ∃ st, (handleCompress sampleEnv sampleState).1.stats = some st
        ∧ st.originalSize = (sampleFile.size : ℚ)
        ∧ st.compressedSize = compressedSizeOf sampleEnv.dataUrl
        ∧ st.reductionPercentage = (1 - st.compressedSize / st.originalSize) * 100 :=
  handleCompress_done_stats sampleEnv sampleState "blob:orig" sampleFile rfl rfl rfl rfl

/-- Claim C2: with an image loaded, a successful compression performs, in
order, a 1500 ms wait, the creation of an off-screen canvas at the image
width and height, a draw of the image onto it, and a JPEG re-encode at
quality 0.7, and its psnr and mse stats are affine functions of the two
Math.random draws alone, not computed from the images. -/
theorem handleCompress_steps (env : CompressEnv) (s : AppState) (u : String)
    (f : AppFile) (hu : s.originalImageUrl = some u) (hf : s.originalFile = some f)
    (hd : env.decodeOk = true) (hc : env.ctxOk = true) :
    (handleCompress env s).2 =
      [CompressEvent.wait 1500,
       CompressEvent.createCanvas env.imageWidth env.imageHeight,
       CompressEvent.drawImage 0 0,
       CompressEvent.toDataURL "image/jpeg" (7 / 10)]
    ∧ ∃ st, (handleCompress env s).1.stats = some st
        ∧ st.psnr = 35 + env.rand1 * 5
        ∧ st.mse = 5 + env.rand2 * 5 := by
  simp [handleCompress, hu, hf, hd, hc]

theorem handleCompress_steps_witness :
    (handleCompress sampleEnv sampleState).2 =
      [CompressEvent.wait 1500,
       CompressEvent.createCanvas sampleEnv.imageWidth sampleEnv.imageHeight,
       CompressEvent.drawImage 0 0,
       CompressEvent.toDataURL "image/jpeg" (7 / 10)]
    ∧ ∃ st, (handleCompress sampleEnv sampleState).1.stats = some st
        ∧ st.psnr = 35 + sampleEnv.rand1 * 5
        ∧ st.mse = 5 + sampleEnv.rand2 * 5 :=
  handleCompress_steps sampleEnv sampleState "blob:orig" sampleFile rfl rfl rfl rfl

/-- Claim C4: when the canvas context is unavailable or the image fails to
decode, compression sets one generic error string, returns the status to
image-loaded, leaves stats, compressedImageUrl, originalFile and
originalImageUrl unchanged, and its event trace shows the single attempt
with no retry. -/
theorem handleCompress_failure_recovery (env : CompressEnv) (s : AppState) (u : String)
    (f : AppFile) (hu : s.originalImageUrl = some u) (hf : s.originalFile = some f)
    (hfail : env.decodeOk = false ∨ env.ctxOk = false) :
    ((handleCompress env s).1.error = some "Could not process image."
      ∨ (handleCompress env s).1.error = some "Could not load image for processing.")
    ∧ (handleCompress env s).1.status = AppStatus.imageLoaded
    ∧ (handleCompress env s).1.stats = s.stats
    ∧ (handleCompress env s).1.compressedImageUrl = s.compressedImageUrl
    ∧ (handleCompress env s).1.originalFile = s.originalFile
    ∧ (handleCompress env s).1.originalImageUrl = s.originalImageUrl
    ∧ ((handleCompress env s).2 = [CompressEvent.wait 1500]
      ∨ (handleCompress env s).2 =
          [CompressEvent.wait 1500,
           CompressEvent.createCanvas env.imageWidth env.imageHeight]) := by
  cases hd : env.decodeOk with
  | false => simp [handleCompress, hu, hf, hd]
  | true =>
    have hc : env.ctxOk = false := by
      rcases hfail with h | h
      · rw [hd] at h; exact absurd h (by simp)
      · exact h
    simp [handleCompress, hu, hf, hd, hc]

theorem handleCompress_failure_recovery_witness :
    (((handleCompress { sampleEnv with ctxOk := false } sampleState).1.error =
          some "Could not process image."
      ∨ (handleCompress { sampleEnv with ctxOk := false } sampleState).1.error =
          some "Could not load image for processing.")
    ∧ (handleCompress { sampleEnv with ctxOk := false } sampleState).1.status =
        AppStatus.imageLoaded
    ∧ (handleCompress { sampleEnv with ctxOk := false } sampleState).1.stats =
        sampleState.stats
    ∧ (handleCompress { sampleEnv with ctxOk := false } sampleState).1.compressedImageUrl =
        sampleState.compressedImageUrl
    ∧ (handleCompress { sampleEnv with ctxOk := false } sampleState).1.originalFile =
        sampleState.originalFile
    ∧ (handleCompress { sampleEnv with ctxOk := false } sampleState).1.originalImageUrl =
        sampleState.originalImageUrl
    ∧ ((handleCompress { sampleEnv with ctxOk := false } sampleState).2 =
          [CompressEvent.wait 1500]
      ∨ (handleCompress { sampleEnv with ctxOk := false } sampleState).2 =
          [CompressEvent.wait 1500,
           CompressEvent.createCanvas ({ sampleEnv with ctxOk := false } : CompressEnv).imageWidth
             ({ sampleEnv with ctxOk := false } : CompressEnv).imageHeight])) :=
  handleCompress_failure_recovery { sampleEnv with ctxOk := false } sampleState
    "blob:orig" sampleFile rfl rfl (Or.inr rfl)

/-- Claim C9: on every completed compression, whatever the random draws in
[0, 1), the fabricated psnr lies in [35, 40) and the fabricated mse lies in
[5, 10). -/
theorem handleCompress_metric_ranges (env : CompressEnv) (s : AppState) (u : String)
    (f : AppFile) (hu : s.originalImageUrl = some u) (hf : s.originalFile = some f)
    (hd : env.decodeOk = true) (hc : env.ctxOk = true)
    (h1 : 0 ≤ env.rand1) (h2 : env.rand1 < 1)
    (h3 : 0 ≤ env.rand2) (h4 : env.rand2 < 1) :
    (handleCompress env s).1.status = AppStatus.done
    ∧ ∃ st, (handleCompress env s).1.stats = some st
        ∧ 35 ≤ st.psnr ∧ st.psnr < 40
        ∧ 5 ≤ st.mse ∧ st.mse < 10 := by
  have hp1 : (35 : ℚ) ≤ 35 + env.rand1 * 5 := by nlinarith
  have hp2 : 35 + env.rand1 * 5 < (40 : ℚ) := by nlinarith
  have hm1 : (5 : ℚ) ≤ 5 + env.rand2 * 5 := by nlinarith
  have hm2 : 5 + env.rand2 * 5 < (10 : ℚ) := by nlinarith
  refine ⟨by simp [handleCompress, hu, hf, hd, hc],
    ⟨{ originalSize := (f.size : ℚ)
       compressedSize := compressedSizeOf env.dataUrl
       reductionPercentage := (1 - compressedSizeOf env.dataUrl / (f.size : ℚ)) * 100
       psnr := 35 + env.rand1 * 5
       mse := 5 + env.rand2 * 5 },
     by simp [handleCompress, hu, hf, hd, hc], hp1, hp2, hm1, hm2⟩⟩

theorem handleCompress_metric_ranges_witness :
    (handleCompress sampleEnv sampleState).1.status = AppStatus.done
    ∧ ∃ st, (handleCompress sampleEnv sampleState).1.stats = some st
        ∧ 35 ≤ st.psnr ∧ st.psnr < 40
        ∧ 5 ≤ st.mse ∧ st.mse < 10 :=
  handleCompress_metric_ranges sampleEnv sampleState "blob:orig" sampleFile rfl rfl rfl rfl
    (by norm_num [sampleEnv]) (by norm_num [sampleEnv])
    (by norm_num [sampleEnv]) (by norm_num [sampleEnv])

/-- List helper: `takeWhile` over an append stops exactly at the first
element falsifying the predicate. -/
theorem takeWhile_append_cons {p : Char → Bool} (xs ys : List Char) (c : Char)
    (hxs : xs.all p = true) (hc : p c = false) :
    (xs ++ c :: ys).takeWhile p = xs := by
  induction xs with
  | nil => simp [List.takeWhile, hc]
  | cons a l ih =>
    simp only [List.all_cons, Bool.and_eq_true] at hxs
    simp [List.takeWhile, hxs.1, ih hxs.2]

/-- For a file name of the form stem.ext with a dot-free stem, the
JavaScript split picks out the stem. -/
theorem splitDotHead_append (stem ext : String)
    (hstem : (stem.toList.all fun c => c != '.') = true) :
    splitDotHead (stem ++ "." ++ ext) = stem := by
  unfold splitDotHead
  have h1 : (stem ++ "." ++ ext).toList = stem.toList ++ '.' :: ext.toList := by
    show (stem ++ "." ++ ext).data = stem.data ++ '.' :: ext.data
    rw [String.data_append, String.data_append]
    simp
  rw [h1, takeWhile_append_cons _ _ _ hstem (by decide)]
  rfl

/-- Download state with a multi-dot file name, used for the C7
counterexample. -/
def multiDotState : AppState :=
  { status := AppStatus.done
    originalFile := some { name := "a.b.png", type := "image/png", size := 100 }
    originalImageUrl := some "blob:orig"
    compressedImageUrl := some "data:image/jpeg;base64,AA"
    stats := none
    error := none }

/-- Claim C7 counterexample: for the original file name a.b.png, removing
the extension gives the basename a.b, so the claim demands the download
name compressed_a.b.jpg, but the code produces compressed_a.jpg. -/
theorem handleDownload_basename_counterexample :
    handleDownload multiDotState = some "compressed_a.jpg"
    ∧ "compressed_a.jpg" ≠ "compressed_a.b.jpg" := by
  constructor
  · rfl
  · decide

/-- Claim C7 as amended: the download produced after compression is named
compressed_S.jpg where S is the part of the original file name before its
first dot, or the word image when that part is empty; in particular, for
every name stem.ext whose stem is nonempty and contains no dot, the
download name is compressed_stem.jpg. -/
theorem handleDownload_name (s : AppState) (u : String) (f : AppFile)
    (hc : s.compressedImageUrl = some u) (hf : s.originalFile = some f) :
    handleDownload s =
      some ("compressed_" ++
        (if splitDotHead f.name = "" then "image" else splitDotHead f.name) ++ ".jpg")
    ∧ ∀ stem ext : String, f.name = stem ++ "." ++ ext →
        (stem.toList.all fun c => c != '.') = true → stem ≠ "" →
        handleDownload s = some ("compressed_" ++ stem ++ ".jpg") := by
  constructor
  · simp [handleDownload, hc, hf]
  · intro stem ext hname hall hne
    have hsplit : splitDotHead f.name = stem := by
      rw [hname]; exact splitDotHead_append stem ext hall
    simp [handleDownload, hc, hf, hsplit, hne]

/-- Download state with a single-dot file name, used by the C7 witness. -/
def singleDotState : AppState :=
  { status := AppStatus.done
    originalFile := some sampleFile
    originalImageUrl := some "blob:orig"
    compressedImageUrl := some "data:image/jpeg;base64,AA"
    stats := none
    error := none }

theorem handleDownload_name_witness :
    handleDownload singleDotState =
      some ("compressed_" ++
        (if splitDotHead sampleFile.name = "" then "image" else splitDotHead sampleFile.name) ++
        ".jpg")
    ∧ handleDownload singleDotState = some ("compressed_" ++ "photo" ++ ".jpg") := by
  have h := handleDownload_name singleDotState "data:image/jpeg;base64,AA" sampleFile rfl rfl
  exact ⟨h.1, h.2 "photo" "png" rfl (by decide) (by decide)⟩

/-- Claim C8 counterexample: the file anim.gif has MIME type image/gif,
which is neither image/jpeg nor image/png, yet selecting it is accepted:
the status becomes image-loaded and no error is set. -/
theorem handleImageSelect_gif_counterexample :
    (handleImageSelect "blob:u" gifFile initialState).status = AppStatus.imageLoaded
    ∧ (handleImageSelect "blob:u" gifFile initialState).error = none
    ∧ gifFile.type ≠ "image/jpeg"
    ∧ gifFile.type ≠ "image/png" := by
  decide

/-- Claim C8 as amended: the selection handler accepts exactly the files
whose MIME type starts with image/ (the picker only suggests JPEG and PNG
through its accept attribute): such a file moves the state to image-loaded
with no error, and any other file is rejected with the error string while
the status stays idle. -/
theorem handleImageSelect_mime_boundary (url : String) (file : AppFile) :
    (jsStartsWith file.type "image/" = true →
      (handleImageSelect url file initialState).status = AppStatus.imageLoaded
      ∧ (handleImageSelect url file initialState).error = none)
    ∧ (jsStartsWith file.type "image/" = false →
      (handleImageSelect url file initialState).status = AppStatus.idle
      ∧ (handleImageSelect url file initialState).error =
          some "Please select a valid image file (JPEG or PNG).") := by
  constructor
  · intro h
    simp [handleImageSelect, h, initialState]
  · intro h
    simp [handleImageSelect, h, initialState]

theorem handleImageSelect_mime_boundary_witness :
    ((handleImageSelect "blob:u" gifFile initialState).status = AppStatus.imageLoaded
      ∧ (handleImageSelect "blob:u" gifFile initialState).error = none)
    ∧ ((handleImageSelect "blob:u" txtFile initialState).status = AppStatus.idle
      ∧ (handleImageSelect "blob:u" txtFile initialState).error =
          some "Please select a valid image file (JPEG or PNG).") :=
  ⟨(handleImageSelect_mime_boundary "blob:u" gifFile).1 (by decide),
   (handleImageSelect_mime_boundary "blob:u" txtFile).2 (by decide)⟩

/-- Claim C10: formatBytes 0 returns the string 0 Bytes; the unit index is
the floor of the base-1024 logarithm; for 1 <= bytes < 1024 ^ 4 that index
is within the four-element sizes array and the unit lookup succeeds; for
bytes >= 1024 ^ 4 the index reaches past the array and the unit lookup is
out of range. -/
theorem formatBytes_unit_selection :
    (∀ d : ℤ, formatBytes 0 d = FormatBytesResult.str "0 Bytes")
    ∧ (∀ b : ℕ, 1 ≤ b →
        ⌊Real.logb ((1024 : ℕ) : ℝ) (b : ℝ)⌋ = (Nat.log 1024 b : ℤ))
    ∧ (∀ (b : ℕ) (d : ℤ), 1 ≤ b → b < 1024 ^ 4 →
        Nat.log 1024 b < formatBytesSizes.length
        ∧ (formatBytesSizes[Nat.log 1024 b]?).isSome = true
        ∧ ∃ v, formatBytes b d =
            FormatBytesResult.formatted v formatBytesSizes[Nat.log 1024 b]?)
    ∧ (∀ (b : ℕ) (d : ℤ), 1024 ^ 4 ≤ b →
        formatBytesSizes.length ≤ Nat.log 1024 b
        ∧ ∃ v, formatBytes b d = FormatBytesResult.formatted v none) := by
  refine ⟨fun d => by simp [formatBytes], fun b hb => ?_, fun b d hb hlt => ?_, fun b d hb => ?_⟩
  · rw [Real.floor_logb_natCast (by positivity), Int.log_natCast]
  · have hb0 : b ≠ 0 := by omega
    have hlog : Nat.log 1024 b < 4 := (Nat.lt_pow_iff_log_lt (by norm_num) hb0).1 hlt
    have hlen4 : Nat.log 1024 b < formatBytesSizes.length := by
      simpa [formatBytesSizes] using hlog
    refine ⟨hlen4, ?_, ?_⟩
    · rw [List.getElem?_eq_getElem hlen4]
      rfl
    · exact ⟨_, by rw [formatBytes]; simp only [hb0, if_false]; rfl⟩
  · have hb0 : b ≠ 0 := by positivity
    have hlog : 4 ≤ Nat.log 1024 b := (Nat.pow_le_iff_le_log (by norm_num) hb0).1 hb
    have hlen : formatBytesSizes.length ≤ Nat.log 1024 b := by
      simpa [formatBytesSizes] using hlog
    refine ⟨hlen, ?_⟩
    exact ⟨_, by rw [formatBytes]; simp only [hb0, if_false]; rw [List.getElem?_eq_none hlen]⟩

theorem formatBytes_unit_selection_witness :
    formatBytes 0 2 = FormatBytesResult.str "0 Bytes"
    ∧ ⌊Real.logb ((1024 : ℕ) : ℝ) ((7 : ℕ) : ℝ)⌋ = (Nat.log 1024 7 : ℤ)
    ∧ (Nat.log 1024 500 < formatBytesSizes.length
        ∧ (formatBytesSizes[Nat.log 1024 500]?).isSome = true
        ∧ ∃ v, formatBytes 500 2 =
            FormatBytesResult.formatted v formatBytesSizes[Nat.log 1024 500]?)
    ∧ (formatBytesSizes.length ≤ Nat.log 1024 (1024 ^ 4)
        ∧ ∃ v, formatBytes (1024 ^ 4) 2 = FormatBytesResult.formatted v none) :=
  ⟨formatBytes_unit_selection.1 2,
   formatBytes_unit_selection.2.1 7 (by decide),
   formatBytes_unit_selection.2.2.1 500 2 (by decide) (by decide),
   formatBytes_unit_selection.2.2.2 (1024 ^ 4) 2 (by decide)⟩
